import Mathlib

/-!
Verification of the Streamlabs custom Twitch subscription alert widget
(`src/alerts.js`) against its natural-language specification.

The widget is a configuration-to-styling translator.  We embed it shallowly:

* JavaScript runtime values that can appear in the configuration map are the
  inductive `JsValue` (absent keys surface as `vUndefined` through map lookup);
  JS numbers are modelled as rationals (all numeric processing in the source
  is parse/clamp/halve/subtract, which is exact on the rationals involved).
* The DOM surface touched by the widget (style custom properties, data
  attributes, presentation classes, the avatar image element, the audio
  element) is the record `DomState`; every manager of the source becomes a
  `DomState -> DomState` function (or `Except` where the source can throw).
* Values written by `setVar` through a template literal such as
  interpolation with a px suffix are kept structured in `CssVal` rather than
  string-formatted, so that numeric claims talk about the actual rational.
* `element.play().catch(handler)` never lets a playback rejection escape;
  the pending outcome is only logged, so the model simply continues.  The
  field `audioPlayFails` of `DomState` records whether the environment would
  reject playback; no function result depends on it, which is the shallow
  form of the catch-and-log contract.
-/

/-- A JavaScript value as it can occur in the configuration map or be
produced by the field accessor.  `vUndefined` also stands for the result of a
missing-property access. -/
inductive JsValue where
  | vUndefined : JsValue
  | vNull : JsValue
  | vStr : String → JsValue
  | vNum : ℚ → JsValue
  | vBool : Bool → JsValue
deriving DecidableEq, Repr

/-- The configuration map (`window.customFields`): a finite association of
string keys to raw values. -/
def Fields : Type := List (String × JsValue)

/-- Structured value of a CSS custom property, mirroring the template
literal used at each `setVar` call site of the source instead of the
formatted string. -/
inductive CssVal where
  | px : ℚ → CssVal
  | sec : ℚ → CssVal
  | deg : ℚ → CssVal
  | em : ℚ → CssVal
  | num : ℚ → CssVal
  | str : String → CssVal
  | val : JsValue → CssVal
  | font : JsValue → CssVal
deriving DecidableEq, Repr

/-- The DOM surface the widget reads and writes.  The five `*Present` flags
say whether the corresponding element exists in the document; the source
never creates or removes elements, so they are read-only.
`avatarSrcWrites` counts assignments to the avatar image source, so that
"at most one reassignment" claims are statable. -/
@[ext]
structure DomState where
  framePresent : Bool
  avatarWrapperPresent : Bool
  ringPresent : Bool
  avatarPresent : Bool
  audioPresent : Bool
  styleVars : String → Option CssVal
  frameShape : Option JsValue
  frameAspect : Option JsValue
  avatarWrapperShape : Option JsValue
  frameGlowClass : Bool
  frameNoSwayClass : Bool
  ringNoSpinClass : Bool
  frameNoGradAnimClass : Bool
  avatarSrc : String
  avatarFallbackData : Option String
  avatarSrcWrites : ℕ
  audioSrc : Option String
  audioVolume : ℚ
  audioCurrentTime : ℚ
  audioPlayRequested : Bool
  audioPlayFails : Bool

/- ============================================================
   JavaScript primitives used by the source
   ============================================================ -/

/-- JS truthiness for the values that can reach a boolean test in the
source (NaN cannot arise from the field accessor, see `parseFloatVal`). -/
def jsTruthy : JsValue → Bool
  | .vUndefined => false
  | .vNull => false
  | .vStr str => decide (str ≠ "")
  | .vNum q => decide (q ≠ 0)
  | .vBool b => b

/-- A JS number as `parseFloat` can produce it: a finite value (exact as a
rational for every computation the source performs) or one of the two
infinities, which the `Infinity` literal yields.  NaN is represented by
`Option.none` at the use sites. -/
inductive JsNumber where
  | finite : ℚ → JsNumber
  | posInf : JsNumber
  | negInf : JsNumber
deriving DecidableEq, Repr

/-- Numeric value of a decimal digit character. -/
def digitVal (c : Char) : ℕ := c.toNat - 48

/-- Fold a list of decimal digit characters into a natural number. -/
def digitsToNat (ds : List Char) : ℕ :=
  ds.foldl (fun a c => 10 * a + digitVal c) 0

/-- Longest prefix of decimal digits, with the remainder. -/
def spanDigits : List Char → List Char × List Char
  | [] => ([], [])
  | c :: rest =>
    if c.isDigit then
      ((c :: (spanDigits rest).1), (spanDigits rest).2)
    else ([], c :: rest)

/-- Optional leading sign of a JS numeric literal: the sign factor and the
remaining characters. -/
def parseSign (cs : List Char) : Int × List Char :=
  match cs with
  | c :: rest =>
    if c = '+' then (1, rest)
    else if c = '-' then (-1, rest)
    else (1, cs)
  | [] => (1, [])

/-- Exponent part of a JS decimal literal: consumed only when an `e`/`E`
is followed by at least one digit, otherwise contributes exponent 0 (the
characters are then trailing garbage, which `parseFloat` ignores). -/
def expPart (cs : List Char) : Int :=
  match cs with
  | c :: rest =>
    if c = 'e' ∨ c = 'E' then
      let sp := parseSign rest
      let ed := (spanDigits sp.2).1
      if ed.isEmpty then 0 else sp.1 * (digitsToNat ed : Int)
    else 0
  | [] => 0

/-- Core of `parseFloat` after leading whitespace and sign: the `Infinity`
literal yields the corresponding infinity, otherwise the longest valid
decimal-literal prefix is taken and `none` (NaN) results when not even one
digit is present. -/
def jsParseFloatAux (sign : Int) (cs1 : List Char) : Option JsNumber :=
  if cs1.take 8 = ['I', 'n', 'f', 'i', 'n', 'i', 't', 'y'] then
    some (if sign < 0 then .negInf else .posInf)
  else
    let ip := (spanDigits cs1).1
    let r1 := (spanDigits cs1).2
    let fpr : List Char × List Char :=
      match r1 with
      | c :: rest => if c = '.' then spanDigits rest else ([], c :: rest)
      | [] => ([], [])
    let fp := fpr.1
    let r2 := fpr.2
    if ip.isEmpty && fp.isEmpty then none
    else
      let mant : ℚ := (digitsToNat ip : ℚ) + (digitsToNat fp : ℚ) / (10 : ℚ) ^ fp.length
      some (.finite ((sign : ℚ) * mant * (10 : ℚ) ^ expPart r2))

/-- JS `parseFloat` on a string: skip leading whitespace, take an optional
sign, then either the `Infinity` literal or the longest decimal-literal
prefix; `none` models NaN. -/
def jsParseFloat (s : String) : Option JsNumber :=
  let sp := parseSign (s.data.dropWhile Char.isWhitespace)
  jsParseFloatAux sp.1 sp.2

/-- `parseFloat(value)` for a runtime value: JS first converts the argument
to a string.  For a (finite) number this round-trips to the same number;
`null`, `undefined` and booleans stringify to non-numeric words, hence NaN. -/
def parseFloatVal : JsValue → Option JsNumber
  | .vStr str => jsParseFloat str
  | .vNum q => some (.finite q)
  | .vBool _ => none
  | .vNull => none
  | .vUndefined => none

/-- The string payload of a string value (used only where the source has
already established that the value is a string). -/
def jsStrVal : JsValue → String
  | .vStr str => str
  | _ => ""

/-- JS `String.prototype.trim`: strip leading and trailing whitespace.
Modelled over the character list (structurally recursive, so the kernel
can evaluate it); the whitespace class covers the characters that occur in
practice (space, tab, carriage return, line feed). -/
def jsTrim (s : String) : String :=
  String.mk (((s.data.dropWhile Char.isWhitespace).reverse.dropWhile Char.isWhitespace).reverse)

/-- JS `String.prototype.includes` specialized to a single character,
modelled over the character list. -/
def jsIncludesChar (s : String) (c : Char) : Bool :=
  s.data.contains c

/- ============================================================
   UTILITY FUNCTIONS (src/alerts.js lines 115-169)
   ============================================================ -/

/-- `getField(fields, key, fallback)`: fallback on absent / `undefined` /
`null` / empty-string entries; strings are trimmed and fall back when the
trim is empty; other values pass through unchanged. -/
def getField (fields : Fields) (key : String) (fallback : JsValue) : JsValue :=
  match List.lookup key fields with
  | none => fallback
  | some val =>
    match val with
    | .vUndefined => fallback
    | .vNull => fallback
    | .vStr str =>
      if str = "" then fallback
      else
        let trimmed := jsTrim str
        if trimmed = "" then fallback else .vStr trimmed
    | other => other

/-- `parseNumber(value, fallback, min, max)`: `parseFloat` the value,
fallback (unclamped) on NaN, otherwise `Math.min(Math.max(num, min), max)`.
For a parsed `+Infinity` the two steps evaluate to the upper bound `hi`;
for `-Infinity` they evaluate to `Math.min(lo, hi)`.  The bound parameters
are named `lo`/`hi` because `min`/`max` are the order operations in Lean;
every call site of the source supplies both bounds. -/
def parseNumber (value : JsValue) (fallback lo hi : ℚ) : ℚ :=
  match parseFloatVal value with
  | none => fallback
  | some (.finite num) => min (max num lo) hi
  | some .posInf => hi
  | some .negInf => min lo hi

/- ============================================================
   DEFAULTS table (src/alerts.js lines 30-109)
   ============================================================ -/

/-- The default configuration table of the source, verbatim. -/
def DEFAULTS : Fields :=
  [ ("alertBoxShape", .vStr "rounded-rectangle"),
    ("shapePadding", .vNum 16),
    ("maintainAspectRatio", .vStr "none"),
    ("containerWidth", .vNum 1000),
    ("containerHeight", .vNum 180),
    ("containerBorderRadius", .vNum 42),
    ("containerOutlineWidth", .vNum 8),
    ("scalingMode", .vStr "fixed"),
    ("maxScale", .vNum 1.5),
    ("minScale", .vNum 0.5),
    ("containerGradient1", .vStr "#7d1dff"),
    ("containerGradient2", .vStr "#a82bff"),
    ("containerGradient3", .vStr "#5a11c9"),
    ("containerGradient4", .vStr "#3f0a9b"),
    ("gradientAngle", .vNum 135),
    ("containerOpacity", .vNum 1),
    ("backgroundBlur", .vNum 0),
    ("avatarSize", .vNum 150),
    ("avatarRingWidth", .vNum 10),
    ("avatarShape", .vStr "circle"),
    ("avatarBorderColor", .vStr "#ffffff"),
    ("avatarBorderWidth", .vNum 4),
    ("circleGradient1", .vStr "#ff9a1f"),
    ("circleGradient2", .vStr "#ff5df2"),
    ("circleGradient3", .vStr "#7c2dff"),
    ("rotationAngle", .vNum 25),
    ("rotationSpeed", .vNum 6),
    ("ringSpinSpeed", .vNum 6),
    ("gradientAnimationSpeed", .vNum 8),
    ("introDuration", .vNum 800),
    ("introEasing", .vStr "easeOutExpo"),
    ("enableSway", .vStr "true"),
    ("enableRingSpin", .vStr "true"),
    ("enableGradientAnimation", .vStr "true"),
    ("textScale", .vNum 1),
    ("textColorMain", .vStr "#0c0018"),
    ("textColorMeta", .vStr "#f4d8ff"),
    ("textShadowColor", .vStr "rgba(0, 0, 0, 0.35)"),
    ("textShadowBlur", .vNum 4),
    ("textCase", .vStr "none"),
    ("fontChoice", .vStr "Ubuntu"),
    ("fontWeightPrimary", .vNum 900),
    ("fontWeightMeta", .vNum 700),
    ("letterSpacing", .vNum (-0.02)),
    ("dropShadowEnabled", .vStr "true"),
    ("dropShadowOffsetX", .vNum 0),
    ("dropShadowOffsetY", .vNum 12),
    ("dropShadowBlur", .vNum 24),
    ("dropShadowColor", .vStr "#000000"),
    ("dropShadowOpacity", .vNum 0.4),
    ("glowEnabled", .vStr "false"),
    ("glowColor", .vStr "#ffffff"),
    ("glowIntensity", .vNum 20),
    ("layoutDirection", .vStr "row"),
    ("contentAlignment", .vStr "center"),
    ("avatarPosition", .vStr "center"),
    ("contentGap", .vNum 24),
    ("fallbackImage", .vStr "https://i.imgur.com/y1kRGQp.gif"),
    ("soundVolume", .vNum 0.8) ]

/-- `DEFAULTS[key]`: property access on the default table, `undefined` when
the key is not a default. -/
def defaultFor (key : String) : JsValue :=
  match List.lookup key DEFAULTS with
  | some v => v
  | none => .vUndefined

/-- `ConfigManager.get(key)` without explicit fallback: the nullish
coalescing `fallback ?? DEFAULTS[key]` selects the default-table entry. -/
def ConfigManager.get (fields : Fields) (key : String) : JsValue :=
  getField fields key (defaultFor key)

/-- `ConfigManager.get(key, fallback)` with an explicit (non-nullish)
fallback argument. -/
def ConfigManager.getD (fields : Fields) (key : String) (fallback : JsValue) : JsValue :=
  getField fields key fallback

/- ============================================================
   Style variable sink (src/alerts.js lines 134-136)
   ============================================================ -/

/-- `setVar(name, value)`: write one CSS custom property; last write for a
name wins. -/
def setVar (name : String) (value : CssVal) (s : DomState) : DomState :=
  { s with styleVars := fun m => if m = name then some value else s.styleVars m }

/- ============================================================
   THEME MANAGER (src/alerts.js lines 233-330)
   ============================================================ -/

def ThemeManager.applyContainerSize (fields : Fields) (s : DomState) : DomState :=
  let width := parseNumber (ConfigManager.get fields "containerWidth") 1000 300 1600
  let height := parseNumber (ConfigManager.get fields "containerHeight") 180 80 400
  let borderRadius := parseNumber (ConfigManager.get fields "containerBorderRadius") 42 0 100
  let outlineWidth := parseNumber (ConfigManager.get fields "containerOutlineWidth") 8 1 30
  s |> setVar "container-width" (.px width)
    |> setVar "container-height" (.px height)
    |> setVar "container-radius-outer" (.px borderRadius)
    |> setVar "container-radius-inner" (.px (max 0 (borderRadius - 8)))
    |> setVar "outline-width" (.px outlineWidth)

def ThemeManager.applyContainerGradients (fields : Fields) (s : DomState) : DomState :=
  s |> setVar "container-1" (.val (ConfigManager.get fields "containerGradient1"))
    |> setVar "container-2" (.val (ConfigManager.get fields "containerGradient2"))
    |> setVar "container-3" (.val (ConfigManager.get fields "containerGradient3"))
    |> setVar "container-4" (.val (ConfigManager.get fields "containerGradient4"))

def ThemeManager.applyAvatarSize (fields : Fields) (s : DomState) : DomState :=
  let size := parseNumber (ConfigManager.get fields "avatarSize") 150 60 300
  let ringWidth := parseNumber (ConfigManager.get fields "avatarRingWidth") 10 2 30
  s |> setVar "avatar-size" (.px size)
    |> setVar "avatar-ring-offset" (.px ringWidth)
    |> setVar "avatar-ring-width" (.px (max 2 (ringWidth / 2)))

def ThemeManager.applyRingGradients (fields : Fields) (s : DomState) : DomState :=
  s |> setVar "ring-1" (.val (ConfigManager.get fields "circleGradient1"))
    |> setVar "ring-2" (.val (ConfigManager.get fields "circleGradient2"))
    |> setVar "ring-3" (.val (ConfigManager.get fields "circleGradient3"))

def ThemeManager.applyAnimation (fields : Fields) (s : DomState) : DomState :=
  let angle := parseNumber (ConfigManager.get fields "rotationAngle") 25 0 45
  let speed := parseNumber (ConfigManager.get fields "rotationSpeed") 6 1 20
  let ringSpeed := parseNumber (ConfigManager.get fields "ringSpinSpeed") 6 1 20
  s |> setVar "sway-angle" (.deg angle)
    |> setVar "sway-duration" (.sec speed)
    |> setVar "ring-spin-duration" (.sec ringSpeed)

def ThemeManager.applyTypography (fields : Fields) (s : DomState) : DomState :=
  let scale := parseNumber (ConfigManager.get fields "textScale") 1 0.5 2
  let textCase := ConfigManager.getD fields "textCase" (.vStr "none")
  let font := ConfigManager.getD fields "fontChoice" (.vStr "Ubuntu")
  let shadowBlur := parseNumber (ConfigManager.get fields "textShadowBlur") 4 0 30
  let fontWeightPrimary := ConfigManager.getD fields "fontWeightPrimary" (.vNum 900)
  let fontWeightMeta := ConfigManager.getD fields "fontWeightMeta" (.vNum 700)
  let letterSpacing := parseNumber (ConfigManager.get fields "letterSpacing") (-0.02) (-0.1) 0.3
  s |> setVar "text-scale" (.num scale)
    |> setVar "text-transform" (.val textCase)
    |> setVar "font-family" (.font font)
    |> setVar "text-primary" (.val (ConfigManager.get fields "textColorMain"))
    |> setVar "text-secondary" (.val (ConfigManager.get fields "textColorMeta"))
    |> setVar "text-shadow-color" (.val (ConfigManager.get fields "textShadowColor"))
    |> setVar "text-shadow-blur" (.px shadowBlur)
    |> setVar "font-weight-primary" (.val fontWeightPrimary)
    |> setVar "font-weight-meta" (.val fontWeightMeta)
    |> setVar "letter-spacing" (.em letterSpacing)

def ThemeManager.apply (fields : Fields) (s : DomState) : DomState :=
  s |> ThemeManager.applyContainerSize fields
    |> ThemeManager.applyContainerGradients fields
    |> ThemeManager.applyAvatarSize fields
    |> ThemeManager.applyRingGradients fields
    |> ThemeManager.applyAnimation fields
    |> ThemeManager.applyTypography fields

/- ============================================================
   SHAPE MANAGER (src/alerts.js lines 340-375)
   ============================================================ -/

/-- `ShapeManager.apply`: early return (warning only) when the frame is
missing; otherwise write the shape data attribute, set or delete the aspect
attribute around the `"none"` sentinel, set the avatar-wrapper shape when
that element exists, and write the padding variable. -/
def ShapeManager.apply (fields : Fields) (s : DomState) : DomState :=
  if s.framePresent = false then s
  else
    let shape := ConfigManager.getD fields "alertBoxShape" (.vStr "rounded-rectangle")
    let aspectRatio := ConfigManager.getD fields "maintainAspectRatio" (.vStr "none")
    let avatarShape := ConfigManager.getD fields "avatarShape" (.vStr "circle")
    let padding := parseNumber (ConfigManager.get fields "shapePadding") 16 0 60
    setVar "shape-padding" (.px padding)
      { s with
        frameShape := some shape,
        frameAspect := if aspectRatio ≠ JsValue.vStr "none" then some aspectRatio else none,
        avatarWrapperShape :=
          if s.avatarWrapperPresent then some avatarShape else s.avatarWrapperShape }

/- ============================================================
   EFFECTS MANAGER (src/alerts.js lines 384-461)
   ============================================================ -/

def EffectsManager.applyDropShadow (fields : Fields) (s : DomState) : DomState :=
  let enabled := decide (ConfigManager.getD fields "dropShadowEnabled" (.vStr "true") = JsValue.vStr "true")
  let offsetX := parseNumber (ConfigManager.get fields "dropShadowOffsetX") 0 (-50) 50
  let offsetY := parseNumber (ConfigManager.get fields "dropShadowOffsetY") 12 0 50
  let blur := parseNumber (ConfigManager.get fields "dropShadowBlur") 24 0 80
  let color := ConfigManager.getD fields "dropShadowColor" (.vStr "#000000")
  let opacity := parseNumber (ConfigManager.get fields "dropShadowOpacity") 0.4 0 1
  s |> setVar "drop-shadow-enabled" (.str (if enabled then "1" else "0"))
    |> setVar "drop-shadow-x" (.px offsetX)
    |> setVar "drop-shadow-y" (.px offsetY)
    |> setVar "drop-shadow-blur" (.px blur)
    |> setVar "drop-shadow-color" (.val color)
    |> setVar "drop-shadow-opacity" (.num opacity)

def EffectsManager.applyGlow (fields : Fields) (s : DomState) : DomState :=
  let enabled := decide (ConfigManager.getD fields "glowEnabled" (.vStr "false") = JsValue.vStr "true")
  let color := ConfigManager.getD fields "glowColor" (.vStr "#ffffff")
  let intensity := parseNumber (ConfigManager.get fields "glowIntensity") 20 5 60
  let s1 := s |> setVar "glow-enabled" (.str (if enabled then "1" else "0"))
              |> setVar "glow-color" (.val color)
              |> setVar "glow-intensity" (.px intensity)
  { s1 with frameGlowClass := if s.framePresent then enabled else s1.frameGlowClass }

def EffectsManager.applyAnimationToggles (fields : Fields) (s : DomState) : DomState :=
  let swayEnabled := decide (ConfigManager.getD fields "enableSway" (.vStr "true") = JsValue.vStr "true")
  let ringSpinEnabled := decide (ConfigManager.getD fields "enableRingSpin" (.vStr "true") = JsValue.vStr "true")
  let gradientEnabled := decide (ConfigManager.getD fields "enableGradientAnimation" (.vStr "true") = JsValue.vStr "true")
  let gradientSpeed := parseNumber (ConfigManager.get fields "gradientAnimationSpeed") 8 2 20
  setVar "gradient-duration" (.sec gradientSpeed)
    { s with
      frameNoSwayClass := if s.framePresent then !swayEnabled else s.frameNoSwayClass,
      ringNoSpinClass := if s.ringPresent then !ringSpinEnabled else s.ringNoSpinClass,
      frameNoGradAnimClass := if s.framePresent then !gradientEnabled else s.frameNoGradAnimClass }

def EffectsManager.apply (fields : Fields) (s : DomState) : DomState :=
  s |> EffectsManager.applyDropShadow fields
    |> EffectsManager.applyGlow fields
    |> EffectsManager.applyAnimationToggles fields

/- ============================================================
   IMAGE RENDERER (src/alerts.js lines 472-519)
   ============================================================ -/

/-- Resolution of the fallback source at `ImageRenderer.init` time:
`element.dataset.fallback || DEFAULTS.fallbackImage` (empty string is
falsy). -/
def ImageRenderer.fallbackOf (s : DomState) : String :=
  match s.avatarFallbackData with
  | some d => if d = "" then "https://i.imgur.com/y1kRGQp.gif" else d
  | none => "https://i.imgur.com/y1kRGQp.gif"

/-- `ImageRenderer.render` is a no-op: the image source is set by the host
via token substitution before this code runs. -/
def ImageRenderer.render (s : DomState) : DomState := s

/-- `ImageRenderer.handleError`: on a load-failure signal, substitute the
recorded fallback source only when the current source differs from it. -/
def ImageRenderer.handleError (fallback : String) (s : DomState) : DomState :=
  if s.avatarPresent = false then s
  else if s.avatarSrc ≠ fallback then
    { s with avatarSrc := fallback, avatarSrcWrites := s.avatarSrcWrites + 1 }
  else s

/- ============================================================
   AUDIO MANAGER (src/alerts.js lines 528-566)
   ============================================================ -/

/-- `AudioManager.isTokenString(str)`: `!str || str.includes(leftBrace) ||
str.includes(rightBrace)`.  On a truthy non-string the method call
`.includes` raises a TypeError, modelled as `Except.error`; on a falsy
value the `!str` disjunct short-circuits to `true`. -/
def AudioManager.isTokenString (v : JsValue) : Except String Bool :=
  match v with
  | .vStr str => .ok (decide (str = "") || jsIncludesChar str '\x7b' || jsIncludesChar str '\x7d')
  | other => if jsTruthy other then .error "TypeError" else .ok true

/-- `AudioManager.play`: skip when the element is missing or the resolved
source is falsy or a placeholder token; otherwise set source, clamped
volume, rewind, and request playback (whose rejection is only logged). -/
def AudioManager.play (fields : Fields) (s : DomState) : Except String DomState :=
  if s.audioPresent = false then .ok s
  else
    let soundSrc := ConfigManager.getD fields "alertSound" (.vStr "")
    let volume := parseNumber (ConfigManager.get fields "soundVolume") 0.8 0 1
    if jsTruthy soundSrc = false then .ok s
    else
      match AudioManager.isTokenString soundSrc with
      | .error e => .error e
      | .ok true => .ok s
      | .ok false =>
        .ok { s with
          audioSrc := some (jsStrVal soundSrc),
          audioVolume := volume,
          audioCurrentTime := 0,
          audioPlayRequested := true }

/- ============================================================
   MAIN INITIALIZATION (src/alerts.js lines 696-729)
   ============================================================ -/

/-- The full initialization pass.  The manager `init` calls capture element
references and the fallback source without touching style variables,
attributes or classes; the intro animation and the screen-reader
announcement act outside the modelled style/attribute/class surface.  The
top-level try/catch turns an exception (only `AudioManager.play` can throw)
into a logged warning, keeping the state reached so far. -/
def init (fields : Fields) (s : DomState) : DomState :=
  let s1 := ThemeManager.apply fields s
  let s2 := ShapeManager.apply fields s1
  let s3 := EffectsManager.apply fields s2
  let s4 := ImageRenderer.render s3
  match AudioManager.play fields s4 with
  | .ok s5 => s5
  | .error _ => s4

/-- A concrete page state with every expected element present, used to
instantiate hypotheses of the claim theorems. -/
def baseDom : DomState :=
  ⟨true, true, true, true, true, fun _ => none, none, none, none,
   false, false, false, false, "https://cdn.example/avatar.gif", none, 0,
   none, 1, 0, false, false⟩

/-- Claim-side characterization (C8): after optional whitespace and sign,
the character list starts with a digit, or with a decimal point followed
by a digit. -/
def hasNumericLeadAux : List Char → Bool
  | [] => false
  | c :: r => c.isDigit || (c = '.' && (r.headD ' ').isDigit)

/-- Claim-side characterization (C8): the string has a leading numeric
prefix in the sense accepted by `parseFloat`. -/
def hasNumericLead (s : String) : Bool :=
  hasNumericLeadAux (parseSign (s.data.dropWhile Char.isWhitespace)).2

/- ============================================================
   Normal-form infrastructure for the initialization pass.
   `applyWrites` replays an ordered list of style-variable writes;
   the `*Writes` lists record, in program order, exactly the
   `setVar` calls each translator performs, and the small value
   helpers name the derived quantities of the source.
   ============================================================ -/

/-- Replay an ordered list of style-variable writes over a style map. -/
def applyWrites (ws : List (String × CssVal)) (g : String → Option CssVal) :
    String → Option CssVal :=
  ws.foldl (fun g2 p => fun m => if m = p.1 then some p.2 else g2 m) g

/-- Last write for a name in an ordered write list (later entries win). -/
def lastWrite (m : String) : List (String × CssVal) → Option CssVal
  | [] => none
  | p :: ws =>
    match lastWrite m ws with
    | some v => some v
    | none => if m = p.1 then some p.2 else none

/-- The style-variable writes of `ThemeManager.apply`, in program order. -/
def themeWrites (fields : Fields) : List (String × CssVal) :=
  [ ("container-width", .px (parseNumber (ConfigManager.get fields "containerWidth") 1000 300 1600)),
    ("container-height", .px (parseNumber (ConfigManager.get fields "containerHeight") 180 80 400)),
    ("container-radius-outer", .px (parseNumber (ConfigManager.get fields "containerBorderRadius") 42 0 100)),
    ("container-radius-inner", .px (max 0 (parseNumber (ConfigManager.get fields "containerBorderRadius") 42 0 100 - 8))),
    ("outline-width", .px (parseNumber (ConfigManager.get fields "containerOutlineWidth") 8 1 30)),
    ("container-1", .val (ConfigManager.get fields "containerGradient1")),
    ("container-2", .val (ConfigManager.get fields "containerGradient2")),
    ("container-3", .val (ConfigManager.get fields "containerGradient3")),
    ("container-4", .val (ConfigManager.get fields "containerGradient4")),
    ("avatar-size", .px (parseNumber (ConfigManager.get fields "avatarSize") 150 60 300)),
    ("avatar-ring-offset", .px (parseNumber (ConfigManager.get fields "avatarRingWidth") 10 2 30)),
    ("avatar-ring-width", .px (max 2 (parseNumber (ConfigManager.get fields "avatarRingWidth") 10 2 30 / 2))),
    ("ring-1", .val (ConfigManager.get fields "circleGradient1")),
    ("ring-2", .val (ConfigManager.get fields "circleGradient2")),
    ("ring-3", .val (ConfigManager.get fields "circleGradient3")),
    ("sway-angle", .deg (parseNumber (ConfigManager.get fields "rotationAngle") 25 0 45)),
    ("sway-duration", .sec (parseNumber (ConfigManager.get fields "rotationSpeed") 6 1 20)),
    ("ring-spin-duration", .sec (parseNumber (ConfigManager.get fields "ringSpinSpeed") 6 1 20)),
    ("text-scale", .num (parseNumber (ConfigManager.get fields "textScale") 1 0.5 2)),
    ("text-transform", .val (ConfigManager.getD fields "textCase" (.vStr "none"))),
    ("font-family", .font (ConfigManager.getD fields "fontChoice" (.vStr "Ubuntu"))),
    ("text-primary", .val (ConfigManager.get fields "textColorMain")),
    ("text-secondary", .val (ConfigManager.get fields "textColorMeta")),
    ("text-shadow-color", .val (ConfigManager.get fields "textShadowColor")),
    ("text-shadow-blur", .px (parseNumber (ConfigManager.get fields "textShadowBlur") 4 0 30)),
    ("font-weight-primary", .val (ConfigManager.getD fields "fontWeightPrimary" (.vNum 900))),
    ("font-weight-meta", .val (ConfigManager.getD fields "fontWeightMeta" (.vNum 700))),
    ("letter-spacing", .em (parseNumber (ConfigManager.get fields "letterSpacing") (-0.02) (-0.1) 0.3)) ]

/-- The (single) style-variable write of `ShapeManager.apply`. -/
def shapeWrites (fields : Fields) : List (String × CssVal) :=
  [("shape-padding", .px (parseNumber (ConfigManager.get fields "shapePadding") 16 0 60))]

/-- The drop-shadow enable flag: resolved value strictly equal to the
string literal `"true"`. -/
def dropShadowOn (fields : Fields) : Bool :=
  decide (ConfigManager.getD fields "dropShadowEnabled" (.vStr "true") = JsValue.vStr "true")

/-- The glow enable flag (defaults to the string `"false"`). -/
def glowOn (fields : Fields) : Bool :=
  decide (ConfigManager.getD fields "glowEnabled" (.vStr "false") = JsValue.vStr "true")

/-- The sway enable flag (defaults to the string `"true"`). -/
def swayOn (fields : Fields) : Bool :=
  decide (ConfigManager.getD fields "enableSway" (.vStr "true") = JsValue.vStr "true")

/-- The ring-spin enable flag (defaults to the string `"true"`). -/
def ringSpinOn (fields : Fields) : Bool :=
  decide (ConfigManager.getD fields "enableRingSpin" (.vStr "true") = JsValue.vStr "true")

/-- The gradient-animation enable flag (defaults to the string `"true"`). -/
def gradientAnimOn (fields : Fields) : Bool :=
  decide (ConfigManager.getD fields "enableGradientAnimation" (.vStr "true") = JsValue.vStr "true")

/-- The style-variable writes of `EffectsManager.apply`, in program order. -/
def effectsWrites (fields : Fields) : List (String × CssVal) :=
  [ ("drop-shadow-enabled", .str (if dropShadowOn fields then "1" else "0")),
    ("drop-shadow-x", .px (parseNumber (ConfigManager.get fields "dropShadowOffsetX") 0 (-50) 50)),
    ("drop-shadow-y", .px (parseNumber (ConfigManager.get fields "dropShadowOffsetY") 12 0 50)),
    ("drop-shadow-blur", .px (parseNumber (ConfigManager.get fields "dropShadowBlur") 24 0 80)),
    ("drop-shadow-color", .val (ConfigManager.getD fields "dropShadowColor" (.vStr "#000000"))),
    ("drop-shadow-opacity", .num (parseNumber (ConfigManager.get fields "dropShadowOpacity") 0.4 0 1)),
    ("glow-enabled", .str (if glowOn fields then "1" else "0")),
    ("glow-color", .val (ConfigManager.getD fields "glowColor" (.vStr "#ffffff"))),
    ("glow-intensity", .px (parseNumber (ConfigManager.get fields "glowIntensity") 20 5 60)),
    ("gradient-duration", .sec (parseNumber (ConfigManager.get fields "gradientAnimationSpeed") 8 2 20)) ]

/-- All style-variable writes of one initialization pass, in program order
(the shape padding write is skipped when the frame element is missing). -/
def coreWrites (fields : Fields) (framePresent : Bool) : List (String × CssVal) :=
  themeWrites fields ++ (if framePresent then shapeWrites fields else []) ++ effectsWrites fields

/-- The resolved alert-box shape value. -/
def shapeVal (fields : Fields) : JsValue :=
  ConfigManager.getD fields "alertBoxShape" (.vStr "rounded-rectangle")

/-- The aspect-ratio data attribute after one pass: set unless the
resolved value is the sentinel string `"none"`. -/
def aspectVal (fields : Fields) : Option JsValue :=
  if ConfigManager.getD fields "maintainAspectRatio" (.vStr "none") ≠ JsValue.vStr "none" then
    some (ConfigManager.getD fields "maintainAspectRatio" (.vStr "none"))
  else none

/-- The resolved avatar shape value. -/
def avatarShapeVal (fields : Fields) : JsValue :=
  ConfigManager.getD fields "avatarShape" (.vStr "circle")

/-- The resolved sound source. -/
def resolvedSound (fields : Fields) : JsValue :=
  ConfigManager.getD fields "alertSound" (.vStr "")

/-- The resolved, clamped sound volume. -/
def soundVol (fields : Fields) : ℚ :=
  parseNumber (ConfigManager.get fields "soundVolume") 0.8 0 1

/-- Whether `AudioManager.play` reaches the playback branch: truthy
resolved source that the token check accepts. -/
def playGo (fields : Fields) : Bool :=
  jsTruthy (resolvedSound fields) &&
    (match AudioManager.isTokenString (resolvedSound fields) with
     | .ok false => true
     | _ => false)

/- ============================================================
   Normal-form lemmas
   ============================================================ -/

theorem theme_nf (fields : Fields) (s : DomState) :
    ThemeManager.apply fields s =
      { s with styleVars := applyWrites (themeWrites fields) s.styleVars } := by
  simp only [ThemeManager.apply, ThemeManager.applyContainerSize,
    ThemeManager.applyContainerGradients, ThemeManager.applyAvatarSize,
    ThemeManager.applyRingGradients, ThemeManager.applyAnimation,
    ThemeManager.applyTypography, setVar, applyWrites, themeWrites, List.foldl]

theorem shape_nf (fields : Fields) (s : DomState) :
    ShapeManager.apply fields s =
      if s.framePresent = false then s
      else
        { s with
          frameShape := some (shapeVal fields),
          frameAspect := aspectVal fields,
          avatarWrapperShape :=
            if s.avatarWrapperPresent then some (avatarShapeVal fields)
            else s.avatarWrapperShape,
          styleVars := applyWrites (shapeWrites fields) s.styleVars } := by
  simp only [ShapeManager.apply, setVar, applyWrites, shapeWrites, List.foldl,
    shapeVal, aspectVal, avatarShapeVal]

theorem effects_nf (fields : Fields) (s : DomState) :
    EffectsManager.apply fields s =
      { s with
        styleVars := applyWrites (effectsWrites fields) s.styleVars,
        frameGlowClass := if s.framePresent then glowOn fields else s.frameGlowClass,
        frameNoSwayClass := if s.framePresent then !swayOn fields else s.frameNoSwayClass,
        ringNoSpinClass := if s.ringPresent then !ringSpinOn fields else s.ringNoSpinClass,
        frameNoGradAnimClass :=
          if s.framePresent then !gradientAnimOn fields else s.frameNoGradAnimClass } := by
  simp only [EffectsManager.apply, EffectsManager.applyDropShadow,
    EffectsManager.applyGlow, EffectsManager.applyAnimationToggles, setVar,
    applyWrites, effectsWrites, List.foldl, dropShadowOn, glowOn, swayOn,
    ringSpinOn, gradientAnimOn]

theorem applyWrites_nil (g : String → Option CssVal) : applyWrites [] g = g := rfl

theorem applyWrites_cons (p : String × CssVal) (ws : List (String × CssVal))
    (g : String → Option CssVal) :
    applyWrites (p :: ws) g =
      applyWrites ws (fun m => if m = p.1 then some p.2 else g m) := rfl

theorem applyWrites_append (a b : List (String × CssVal)) (g : String → Option CssVal) :
    applyWrites (a ++ b) g = applyWrites b (applyWrites a g) := by
  simp only [applyWrites, List.foldl_append]

theorem applyWrites_apply (ws : List (String × CssVal)) (g : String → Option CssVal)
    (m : String) :
    applyWrites ws g m =
      match lastWrite m ws with
      | some v => some v
      | none => g m := by
  induction ws generalizing g with
  | nil => simp [applyWrites, lastWrite]
  | cons p ws ih =>
    rw [applyWrites_cons, ih]
    simp only [lastWrite]
    cases hlw : lastWrite m ws with
    | some v => simp
    | none =>
      by_cases hm : m = p.1 <;> simp [hm]

theorem applyWrites_idem (ws : List (String × CssVal)) (g : String → Option CssVal) :
    applyWrites ws (applyWrites ws g) = applyWrites ws g := by
  funext m
  rw [applyWrites_apply, applyWrites_apply]
  cases hlw : lastWrite m ws with
  | some v => simp
  | none => simp

/-- Normal form of one initialization pass: every component it writes is a
function of the configuration map and the immutable element-presence flags
alone; everything else passes through. -/
theorem init_nf (fields : Fields) (s : DomState) :
    init fields s =
      { s with
        styleVars := applyWrites (coreWrites fields s.framePresent) s.styleVars,
        frameShape := if s.framePresent then some (shapeVal fields) else s.frameShape,
        frameAspect := if s.framePresent then aspectVal fields else s.frameAspect,
        avatarWrapperShape :=
          if s.framePresent && s.avatarWrapperPresent then some (avatarShapeVal fields)
          else s.avatarWrapperShape,
        frameGlowClass := if s.framePresent then glowOn fields else s.frameGlowClass,
        frameNoSwayClass := if s.framePresent then !swayOn fields else s.frameNoSwayClass,
        ringNoSpinClass := if s.ringPresent then !ringSpinOn fields else s.ringNoSpinClass,
        frameNoGradAnimClass :=
          if s.framePresent then !gradientAnimOn fields else s.frameNoGradAnimClass,
        audioSrc :=
          if s.audioPresent && playGo fields then some (jsStrVal (resolvedSound fields))
          else s.audioSrc,
        audioVolume := if s.audioPresent && playGo fields then soundVol fields else s.audioVolume,
        audioCurrentTime := if s.audioPresent && playGo fields then 0 else s.audioCurrentTime,
        audioPlayRequested :=
          if s.audioPresent && playGo fields then true else s.audioPlayRequested } := by
  by_cases hf : s.framePresent <;> by_cases ha : s.audioPresent <;>
    simp only [init, ImageRenderer.render, theme_nf, shape_nf, effects_nf, hf, ha,
      coreWrites, applyWrites_append, applyWrites_nil, AudioManager.play,
      resolvedSound, soundVol, playGo, Bool.true_and, Bool.false_and,
      Bool.true_eq_false, Bool.false_eq_true, if_true, if_false, ite_true, ite_false,
      Bool.not_true, Bool.not_false, and_true, and_false] <;>
  first
  | rfl
  | (by_cases htr : jsTruthy (ConfigManager.getD fields "alertSound" (JsValue.vStr "")) <;>
      simp only [htr, if_true, if_false, ite_true, ite_false, Bool.true_and, Bool.false_and] <;>
      first
      | rfl
      | (cases hts : AudioManager.isTokenString (ConfigManager.getD fields "alertSound" (JsValue.vStr "")) with
         | error e => simp [hts]
         | ok b => cases b <;> simp [hts]))

/-- C2: running the full initialization pass twice in succession with the
same unchanged configuration map produces exactly the same final DOM state
(style-variable set, data attributes, presentation classes, audio element
state) as running it once: reinitialization is idempotent. -/
theorem init_reinit_idempotent (fields : Fields) (s : DomState) :
    init fields (init fields s) = init fields s := by
  simp only [init_nf]
  ext <;> simp only [applyWrites_idem] <;> split_ifs <;> rfl

/- ============================================================
   Claim theorems
   ============================================================ -/

/-- C1: for every input value and every bound pair with `lo ≤ hi` (which
holds for every documented numeric range), the numeric clamp parser yields
a number within the bounds inclusive when parsing succeeds, returns the
fallback unclamped when parsing fails, and hence always yields a value
clamped within the range or equal to the fallback. -/
theorem parseNumber_clamp_spec (value : JsValue) (fallback lo hi : ℚ) (h : lo ≤ hi) :
    (parseFloatVal value = none → parseNumber value fallback lo hi = fallback) ∧
    (∀ num, parseFloatVal value = some num →
      lo ≤ parseNumber value fallback lo hi ∧ parseNumber value fallback lo hi ≤ hi) ∧
    ((lo ≤ parseNumber value fallback lo hi ∧ parseNumber value fallback lo hi ≤ hi) ∨
      parseNumber value fallback lo hi = fallback) := by
  cases hp : parseFloatVal value with
  | none => simp [parseNumber, hp]
  | some num =>
    cases num with
    | finite q =>
      have h1 : lo ≤ min (max q lo) hi := le_min (le_max_right _ _) h
      have h2 : min (max q lo) hi ≤ hi := min_le_right _ _
      simp [parseNumber, hp, h1, h2]
    | posInf => simp [parseNumber, hp, h]
    | negInf =>
      have h1 : lo ≤ min lo hi := le_min le_rfl h
      have h2 : min lo hi ≤ hi := min_le_right _ _
      simp [parseNumber, hp, h1, h2]

/-- Witness for C1 at the non-numeric input `"abc"` with range `[0, 10]`
and fallback `7`. -/
theorem parseNumber_clamp_spec_witness :
    (0:ℚ) ≤ 10 ∧
    ((parseFloatVal (.vStr "abc") = none → parseNumber (.vStr "abc") 7 0 10 = 7) ∧
     (∀ num, parseFloatVal (.vStr "abc") = some num →
       0 ≤ parseNumber (.vStr "abc") 7 0 10 ∧ parseNumber (.vStr "abc") 7 0 10 ≤ 10) ∧
     ((0 ≤ parseNumber (.vStr "abc") 7 0 10 ∧ parseNumber (.vStr "abc") 7 0 10 ≤ 10) ∨
       parseNumber (.vStr "abc") 7 0 10 = 7)) :=
  ⟨by norm_num, parseNumber_clamp_spec (.vStr "abc") 7 0 10 (by norm_num)⟩

/-- C7: the field accessor returns the fallback when the key is absent or
its entry is `undefined`, `null` or trims to the empty string; string
entries come back trimmed; non-string entries pass through unchanged; the
accessor is a total function, so no error is ever raised for a missing
key. -/
theorem getField_fallback_spec (fields : Fields) (key : String) (fallback : JsValue) :
    (List.lookup key fields = none → getField fields key fallback = fallback) ∧
    (List.lookup key fields = some .vUndefined → getField fields key fallback = fallback) ∧
    (List.lookup key fields = some .vNull → getField fields key fallback = fallback) ∧
    (∀ str, List.lookup key fields = some (.vStr str) →
      getField fields key fallback =
        if jsTrim str = "" then fallback else .vStr (jsTrim str)) ∧
    (∀ q, List.lookup key fields = some (.vNum q) → getField fields key fallback = .vNum q) ∧
    (∀ b, List.lookup key fields = some (.vBool b) → getField fields key fallback = .vBool b) := by
  refine ⟨fun h => by simp [getField, h], fun h => by simp [getField, h],
    fun h => by simp [getField, h], fun str h => ?_,
    fun q h => by simp [getField, h], fun b h => by simp [getField, h]⟩
  simp only [getField, h]
  by_cases hs : str = ""
  · subst hs
    have ht : jsTrim "" = "" := by decide
    simp [ht]
  · simp [hs]

/-- Witness for C7: a key whose entry is the padded string `"  a  "`
resolves to the trimmed string `"a"`. -/
theorem getField_fallback_spec_witness :
    List.lookup "k" [("k", JsValue.vStr "  a  ")] = some (JsValue.vStr "  a  ") ∧
    getField [("k", JsValue.vStr "  a  ")] "k" (.vStr "d") =
      (if jsTrim "  a  " = "" then JsValue.vStr "d" else JsValue.vStr (jsTrim "  a  ")) :=
  ⟨rfl, (getField_fallback_spec [("k", JsValue.vStr "  a  ")] "k" (.vStr "d")).2.2.2.1
    "  a  " rfl⟩

/-- C3: the image fallback substitution is guarded by a source-equality
check: when the current source already equals the recorded fallback, a
load-failure signal reassigns nothing; handling a failure twice equals
handling it once, and two consecutive failures perform at most one source
reassignment; after one handled failure the source is the fallback. -/
theorem imageFallback_at_most_once (fallback : String) (s : DomState) :
    (s.avatarSrc = fallback → ImageRenderer.handleError fallback s = s) ∧
    (ImageRenderer.handleError fallback (ImageRenderer.handleError fallback s) =
      ImageRenderer.handleError fallback s) ∧
    ((ImageRenderer.handleError fallback
        (ImageRenderer.handleError fallback s)).avatarSrcWrites ≤ s.avatarSrcWrites + 1) ∧
    (s.avatarPresent = true → (ImageRenderer.handleError fallback s).avatarSrc = fallback) := by
  unfold ImageRenderer.handleError
  by_cases hp : s.avatarPresent <;> by_cases hsrc : s.avatarSrc = fallback <;>
    simp [hp, hsrc, Nat.le_succ]

/-- Witness for C3: two simulated load failures on a live avatar element
leave the source at the default fallback after a single reassignment. -/
theorem imageFallback_at_most_once_witness :
    baseDom.avatarPresent = true ∧
    (ImageRenderer.handleError "https://i.imgur.com/y1kRGQp.gif" baseDom).avatarSrc =
      "https://i.imgur.com/y1kRGQp.gif" :=
  ⟨rfl,
    (imageFallback_at_most_once "https://i.imgur.com/y1kRGQp.gif" baseDom).2.2.2 rfl⟩

/-- C5 counterexample: the configured non-empty string `" hexagon "`
(padded with spaces) does not appear exactly as the frame shape selector;
the field accessor trims it, so the attribute holds `"hexagon"`. -/
theorem shape_passthrough_counterexample :
    List.lookup "alertBoxShape" [("alertBoxShape", JsValue.vStr " hexagon ")] =
      some (JsValue.vStr " hexagon ") ∧
    " hexagon " ≠ "" ∧
    (ShapeManager.apply [("alertBoxShape", JsValue.vStr " hexagon ")] baseDom).frameShape =
      some (JsValue.vStr "hexagon") ∧
    (ShapeManager.apply [("alertBoxShape", JsValue.vStr " hexagon ")] baseDom).frameShape ≠
      some (JsValue.vStr " hexagon ") := by
  refine ⟨rfl, by decide, by decide, by decide⟩

/-- C5 amended: for every string configured as the alert box shape key
whose trim is non-empty, the trimmed string appears as the frame shape
selector while the frame element exists; in particular every non-empty
string without leading or trailing whitespace is passed through exactly,
with no enumerated validation. -/
theorem shape_passthrough_trimmed (fields : Fields) (s : DomState) (str : String)
    (hf : s.framePresent = true)
    (hlk : List.lookup "alertBoxShape" fields = some (.vStr str))
    (hne : jsTrim str ≠ "") :
    (ShapeManager.apply fields s).frameShape = some (.vStr (jsTrim str)) ∧
    (jsTrim str = str → (ShapeManager.apply fields s).frameShape = some (.vStr str)) := by
  have hs : str ≠ "" := by
    intro h0
    subst h0
    exact hne (by decide)
  have hval : ConfigManager.getD fields "alertBoxShape" (.vStr "rounded-rectangle") =
      .vStr (jsTrim str) := by
    simp [ConfigManager.getD, getField, hlk, hs, hne]
  rw [shape_nf]
  simp only [hf, Bool.true_eq_false, if_false, ite_false]
  constructor
  · simp [shapeVal, hval]
  · intro heq
    simp [shapeVal, hval, heq]

/-- Witness for C5 (amended) at the already-trimmed string `"hexagon"`. -/
theorem shape_passthrough_trimmed_witness :
    baseDom.framePresent = true ∧
    List.lookup "alertBoxShape" [("alertBoxShape", JsValue.vStr "hexagon")] =
      some (JsValue.vStr "hexagon") ∧
    jsTrim "hexagon" ≠ "" ∧
    (ShapeManager.apply [("alertBoxShape", JsValue.vStr "hexagon")] baseDom).frameShape =
      some (JsValue.vStr (jsTrim "hexagon")) :=
  ⟨rfl, rfl, by decide,
    (shape_passthrough_trimmed [("alertBoxShape", JsValue.vStr "hexagon")] baseDom
      "hexagon" rfl rfl (by decide)).1⟩

/-- C6: the derived ring visual width style variable equals half the
clamped configured ring offset floored at 2 units, the floor makes it
always at least 2, and a configured `avatarRingWidth` of 2 yields a ring
visual width of 2 (the floor), not 1. -/
theorem avatarRingWidth_floor (fields : Fields) (s : DomState) :
    ((init fields s).styleVars "avatar-ring-width" =
      some (.px (max 2 (parseNumber (ConfigManager.get fields "avatarRingWidth") 10 2 30 / 2)))) ∧
    ((2:ℚ) ≤ max 2 (parseNumber (ConfigManager.get fields "avatarRingWidth") 10 2 30 / 2)) ∧
    (List.lookup "avatarRingWidth" fields = some (.vNum 2) →
      (init fields s).styleVars "avatar-ring-width" = some (.px 2)) := by
  have hsv : (init fields s).styleVars "avatar-ring-width" =
      some (.px (max 2 (parseNumber (ConfigManager.get fields "avatarRingWidth") 10 2 30 / 2))) := by
    rw [init_nf]
    show applyWrites (coreWrites fields s.framePresent) s.styleVars "avatar-ring-width" = _
    rw [applyWrites_apply]
    cases hfp : s.framePresent <;>
      simp [coreWrites, themeWrites, shapeWrites, effectsWrites, lastWrite]
  refine ⟨hsv, le_max_left _ _, fun h => ?_⟩
  have hv : ConfigManager.get fields "avatarRingWidth" = .vNum 2 := by
    simp [ConfigManager.get, getField, h]
  rw [hsv, hv]
  have : parseNumber (JsValue.vNum 2) 10 2 30 = 2 := by
    simp [parseNumber, parseFloatVal]
    norm_num
  rw [this]
  norm_num

/-- Witness for C6 at a configuration with `avatarRingWidth` set to the
number 2. -/
theorem avatarRingWidth_floor_witness :
    List.lookup "avatarRingWidth" [("avatarRingWidth", JsValue.vNum 2)] =
      some (JsValue.vNum 2) ∧
    (init [("avatarRingWidth", JsValue.vNum 2)] baseDom).styleVars "avatar-ring-width" =
      some (.px 2) :=
  ⟨rfl, (avatarRingWidth_floor [("avatarRingWidth", JsValue.vNum 2)] baseDom).2.2 rfl⟩

/-- C10: the inner corner-radius style variable equals
`max 0 (r - 8)` for `r` the clamped configured container border radius;
it is therefore non-negative, never exceeds the outer radius, and equals
the outer radius minus the fixed 8-unit inset whenever `r ≥ 8`. -/
theorem innerRadius_inset (fields : Fields) (s : DomState) :
    ((init fields s).styleVars "container-radius-inner" =
      some (.px (max 0 (parseNumber (ConfigManager.get fields "containerBorderRadius") 42 0 100 - 8)))) ∧
    ((0:ℚ) ≤ max 0 (parseNumber (ConfigManager.get fields "containerBorderRadius") 42 0 100 - 8)) ∧
    (max 0 (parseNumber (ConfigManager.get fields "containerBorderRadius") 42 0 100 - 8) ≤
      parseNumber (ConfigManager.get fields "containerBorderRadius") 42 0 100) ∧
    (8 ≤ parseNumber (ConfigManager.get fields "containerBorderRadius") 42 0 100 →
      max 0 (parseNumber (ConfigManager.get fields "containerBorderRadius") 42 0 100 - 8) =
        parseNumber (ConfigManager.get fields "containerBorderRadius") 42 0 100 - 8) := by
  have hr : (0:ℚ) ≤ parseNumber (ConfigManager.get fields "containerBorderRadius") 42 0 100 := by
    cases hp : parseFloatVal (ConfigManager.get fields "containerBorderRadius") with
    | none => simp [parseNumber, hp]
    | some num =>
      cases num with
      | finite q =>
        simp only [parseNumber, hp]
        exact le_min (le_max_right _ _) (by norm_num)
      | posInf =>
        simp only [parseNumber, hp]
        norm_num
      | negInf =>
        simp only [parseNumber, hp]
        exact le_min le_rfl (by norm_num)
  have hsv : (init fields s).styleVars "container-radius-inner" =
      some (.px (max 0 (parseNumber (ConfigManager.get fields "containerBorderRadius") 42 0 100 - 8))) := by
    rw [init_nf]
    show applyWrites (coreWrites fields s.framePresent) s.styleVars "container-radius-inner" = _
    rw [applyWrites_apply]
    cases hfp : s.framePresent <;>
      simp [coreWrites, themeWrites, shapeWrites, effectsWrites, lastWrite]
  refine ⟨hsv, le_max_left _ _, max_le hr (by linarith), fun h8 => max_eq_right (by linarith)⟩

/-- Witness for C10 at the empty configuration, whose default radius is
42: the inner radius is 34 = 42 - 8. -/
theorem innerRadius_inset_witness :
    (8 ≤ parseNumber (ConfigManager.get [] "containerBorderRadius") 42 0 100) ∧
    max 0 (parseNumber (ConfigManager.get [] "containerBorderRadius") 42 0 100 - 8) =
      parseNumber (ConfigManager.get [] "containerBorderRadius") 42 0 100 - 8 :=
  ⟨by decide, (innerRadius_inset [] baseDom).2.2.2 (by decide)⟩

/-- The parse core fails (NaN) exactly when the character list neither
starts with the `Infinity` literal nor has a leading numeric prefix. -/
theorem jsParseFloatAux_none_iff (sign : Int) (cs1 : List Char) :
    jsParseFloatAux sign cs1 = none ↔
      (cs1.take 8 ≠ ['I', 'n', 'f', 'i', 'n', 'i', 't', 'y'] ∧
        hasNumericLeadAux cs1 = false) := by
  by_cases hInf : cs1.take 8 = ['I', 'n', 'f', 'i', 'n', 'i', 't', 'y']
  · simp [jsParseFloatAux, hInf]
  · cases cs1 with
    | nil => simp [jsParseFloatAux, hasNumericLeadAux, spanDigits, hInf]
    | cons c r =>
      by_cases hd : c.isDigit
      · have hsome : jsParseFloatAux sign (c :: r) ≠ none := by
          simp only [jsParseFloatAux]
          split
          · simp
          · simp [spanDigits, hd]
        simp [hsome, hasNumericLeadAux, hd]
      · by_cases hdot : c = '.'
        · subst hdot
          cases r with
          | nil => simp [jsParseFloatAux, hasNumericLeadAux, spanDigits, hd, hInf]
          | cons d r2 =>
            by_cases hd2 : d.isDigit <;>
              simp [jsParseFloatAux, hasNumericLeadAux, spanDigits, hd, hd2, hInf]
        · simp [jsParseFloatAux, hasNumericLeadAux, spanDigits, hd, hdot, hInf]

/-- C8: the numeric clamp parser accepts strings with a numeric prefix
followed by non-numeric characters as successful parses of the prefix,
which is then clamped; only inputs with no leading numeric prefix fall
back: a parse failure implies the absence of a numeric prefix.  (The
converse implication does not hold of the program: the prefix-free literal
`"Infinity"` also parses, and clamping then yields the range bound rather
than the fallback, as the last two conjuncts record.) -/
theorem parseFloat_numericLead :
    (∀ s : String, jsParseFloat s = none → hasNumericLead s = false) ∧
    (∀ s : String, hasNumericLead s = true → jsParseFloat s ≠ none) ∧
    jsParseFloat "12px" = some (.finite 12) ∧
    jsParseFloat "3.5abc" = some (.finite (7/2)) ∧
    parseNumber (.vStr "12px") 7 0 10 = 10 ∧
    parseNumber (.vStr "%x") 7 0 10 = 7 ∧
    jsParseFloat "Infinity" = some .posInf ∧
    parseNumber (.vStr "Infinity") 7 0 10 = 10 := by
  have hc0 : ('0').toNat = 48 := rfl
  have hc1 : ('1').toNat = 49 := rfl
  have hc2 : ('2').toNat = 50 := rfl
  have hc3 : ('3').toNat = 51 := rfl
  have hc5 : ('5').toNat = 53 := rfl
  have hnone : ∀ s : String, jsParseFloat s = none → hasNumericLead s = false := by
    intro s hs
    unfold hasNumericLead
    unfold jsParseFloat at hs
    exact ((jsParseFloatAux_none_iff _ _).mp hs).2
  refine ⟨hnone, fun s hs hn => ?_, ?_, ?_, ?_, ?_, by decide, by decide⟩
  · have h2 := hnone s hn
    rw [hs] at h2
    exact absurd h2 (by simp)
  all_goals
    norm_num +decide [hc0, hc1, hc2, hc3, hc5, parseNumber, parseFloatVal,
      jsParseFloat, jsParseFloatAux, parseSign, spanDigits, digitsToNat,
      digitVal, expPart]

/-- Witness for C8: the string `"px"` parses to NaN, and the implication
instance confirms it has no numeric prefix. -/
theorem parseFloat_numericLead_witness :
    (jsParseFloat "px" = none → hasNumericLead "px" = false) ∧
    jsParseFloat "px" = none ∧ hasNumericLead "px" = false :=
  ⟨parseFloat_numericLead.1 "px", by decide, by decide⟩

/-- C9: every boolean enable flag is enabled exactly when the
field-accessor-resolved configuration value is the string `"true"`: the
drop-shadow and glow style variables publish `"1"` under precisely that
condition, and each presentation class (glow, and the negated-polarity
no-sway / no-spin / no-gradient-animation classes) follows the same strict
string comparison on its present target element; any other value,
including the boolean `true`, is treated as disabled. -/
theorem booleanFlags_literal_true (fields : Fields) (s : DomState) :
    ((init fields s).styleVars "drop-shadow-enabled" =
      some (.str (if getField fields "dropShadowEnabled" (.vStr "true") = JsValue.vStr "true"
        then "1" else "0"))) ∧
    ((init fields s).styleVars "glow-enabled" =
      some (.str (if getField fields "glowEnabled" (.vStr "false") = JsValue.vStr "true"
        then "1" else "0"))) ∧
    (s.framePresent = true →
      ((init fields s).frameGlowClass = true ↔
        getField fields "glowEnabled" (.vStr "false") = JsValue.vStr "true")) ∧
    (s.framePresent = true →
      ((init fields s).frameNoSwayClass = false ↔
        getField fields "enableSway" (.vStr "true") = JsValue.vStr "true")) ∧
    (s.ringPresent = true →
      ((init fields s).ringNoSpinClass = false ↔
        getField fields "enableRingSpin" (.vStr "true") = JsValue.vStr "true")) ∧
    (s.framePresent = true →
      ((init fields s).frameNoGradAnimClass = false ↔
        getField fields "enableGradientAnimation" (.vStr "true") = JsValue.vStr "true")) := by
  rw [init_nf]
  refine ⟨?_, ?_, fun hf => ?_, fun hf => ?_, fun hr => ?_, fun hf => ?_⟩
  · show applyWrites (coreWrites fields s.framePresent) s.styleVars "drop-shadow-enabled" = _
    rw [applyWrites_apply]
    cases hfp : s.framePresent <;>
      simp [coreWrites, themeWrites, shapeWrites, effectsWrites, lastWrite,
        dropShadowOn, ConfigManager.getD]
  · show applyWrites (coreWrites fields s.framePresent) s.styleVars "glow-enabled" = _
    rw [applyWrites_apply]
    cases hfp : s.framePresent <;>
      simp [coreWrites, themeWrites, shapeWrites, effectsWrites, lastWrite,
        glowOn, ConfigManager.getD]
  · show (if s.framePresent then glowOn fields else s.frameGlowClass) = true ↔ _
    simp [hf, glowOn, ConfigManager.getD]
  · show (if s.framePresent then !swayOn fields else s.frameNoSwayClass) = false ↔ _
    simp [hf, swayOn, ConfigManager.getD]
  · show (if s.ringPresent then !ringSpinOn fields else s.ringNoSpinClass) = false ↔ _
    simp [hr, ringSpinOn, ConfigManager.getD]
  · show (if s.framePresent then !gradientAnimOn fields else s.frameNoGradAnimClass) = false ↔ _
    simp [hf, gradientAnimOn, ConfigManager.getD]

/-- Witness for C9: the boolean value `true` (not the string `"true"`)
configured for `glowEnabled` resolves to a value different from the string
`"true"`, so the glow class stays off. -/
theorem booleanFlags_literal_true_witness :
    baseDom.framePresent = true ∧
    getField [("glowEnabled", JsValue.vBool true)] "glowEnabled" (.vStr "false") ≠
      JsValue.vStr "true" ∧
    ((init [("glowEnabled", JsValue.vBool true)] baseDom).frameGlowClass = true ↔
      getField [("glowEnabled", JsValue.vBool true)] "glowEnabled" (.vStr "false") =
        JsValue.vStr "true") :=
  ⟨rfl, by decide,
    (booleanFlags_literal_true [("glowEnabled", JsValue.vBool true)] baseDom).2.2.1 rfl⟩

/-- C4 counterexample: with `alertSound` configured as the number `5`, the
resolved sound source is truthy (non-empty in the sense of the claim) and
contains no brace character, yet no playback is attempted: the token check
calls a string method on a number, raising a TypeError that the top-level
handler catches, so the pass ends with no playback request. -/
theorem audioPlay_nonstring_counterexample :
    ConfigManager.getD [("alertSound", JsValue.vNum 5)] "alertSound" (.vStr "") =
      JsValue.vNum 5 ∧
    jsTruthy (JsValue.vNum 5) = true ∧
    AudioManager.play [("alertSound", JsValue.vNum 5)] baseDom = .error "TypeError" ∧
    (init [("alertSound", JsValue.vNum 5)] baseDom).audioPlayRequested = false := by
  refine ⟨by decide, by decide, rfl, ?_⟩
  rw [init_nf]
  show (if baseDom.audioPresent && playGo [("alertSound", JsValue.vNum 5)] then true
    else baseDom.audioPlayRequested) = false
  decide

/-- C4 amended: when the audio element exists and the resolved sound
source is a string, playback is attempted exactly when that string is
non-empty and contains neither brace character; an attempt sets the
element source to the string and the volume to the configured volume
clamped into [0, 1]; otherwise the element is left untouched.  The play
result never depends on `audioPlayFails`, the modelled rejection of the
playback promise, which is the catch-and-log contract. -/
theorem audioPlay_string_iff (fields : Fields) (s : DomState)
    (ha : s.audioPresent = true) :
    ∀ str, ConfigManager.getD fields "alertSound" (.vStr "") = .vStr str →
      ((str ≠ "" ∧ jsIncludesChar str '\x7b' = false ∧ jsIncludesChar str '\x7d' = false) →
        AudioManager.play fields s =
          .ok { s with
            audioSrc := some str,
            audioVolume := soundVol fields,
            audioCurrentTime := 0,
            audioPlayRequested := true }) ∧
      ((str = "" ∨ jsIncludesChar str '\x7b' = true ∨ jsIncludesChar str '\x7d' = true) →
        AudioManager.play fields s = .ok s) ∧
      ((0:ℚ) ≤ soundVol fields ∧ soundVol fields ≤ 1) := by
  intro str hres
  have hvol : (0:ℚ) ≤ soundVol fields ∧ soundVol fields ≤ 1 := by
    unfold soundVol
    cases hp : parseFloatVal (ConfigManager.get fields "soundVolume") with
    | none => simp [parseNumber, hp]; norm_num
    | some num =>
      cases num with
      | finite q =>
        simp only [parseNumber, hp]
        exact ⟨le_min (le_max_right _ _) (by norm_num), min_le_right _ _⟩
      | posInf =>
        simp only [parseNumber, hp]
        norm_num
      | negInf =>
        simp only [parseNumber, hp]
        exact ⟨le_min le_rfl (by norm_num), min_le_right _ _⟩
  refine ⟨fun hgo => ?_, fun hskip => ?_, hvol⟩
  · obtain ⟨hne, hlb, hrb⟩ := hgo
    simp [AudioManager.play, ha, hres, jsTruthy, hne, AudioManager.isTokenString,
      hlb, hrb, jsStrVal, soundVol]
  · rcases hskip with he | hlb | hrb
    · simp [AudioManager.play, ha, hres, jsTruthy, he]
    · by_cases he : str = ""
      · simp [AudioManager.play, ha, hres, jsTruthy, he]
      · simp [AudioManager.play, ha, hres, jsTruthy, he, AudioManager.isTokenString, hlb]
    · by_cases he : str = ""
      · simp [AudioManager.play, ha, hres, jsTruthy, he]
      · by_cases hlb : jsIncludesChar str '\x7b' = true
        · simp [AudioManager.play, ha, hres, jsTruthy, he, AudioManager.isTokenString, hlb]
        · simp [AudioManager.play, ha, hres, jsTruthy, he, AudioManager.isTokenString,
            hlb, hrb]

/-- Witness for C4 (amended): a real URL with configured volume 2 plays at
volume clamped to 1, even when the environment would reject playback; the
unsubstituted token string causes no playback attempt. -/
theorem audioPlay_string_iff_witness :
    baseDom.audioPresent = true ∧
    soundVol [("alertSound", JsValue.vStr "https://example.com/a.mp3"),
      ("soundVolume", JsValue.vNum 2)] = 1 ∧
    (AudioManager.play [("alertSound", JsValue.vStr "https://example.com/a.mp3"),
        ("soundVolume", JsValue.vNum 2)]
        { baseDom with audioPlayFails := true } =
      .ok { { baseDom with audioPlayFails := true } with
        audioSrc := some "https://example.com/a.mp3",
        audioVolume := soundVol [("alertSound", JsValue.vStr "https://example.com/a.mp3"),
          ("soundVolume", JsValue.vNum 2)],
        audioCurrentTime := 0,
        audioPlayRequested := true }) ∧
    AudioManager.play [("alertSound", JsValue.vStr "\x7balertSound\x7d")] baseDom =
      .ok baseDom := by
  refine ⟨rfl, by decide, ?_, ?_⟩
  · exact ((audioPlay_string_iff
      [("alertSound", JsValue.vStr "https://example.com/a.mp3"),
        ("soundVolume", JsValue.vNum 2)]
      { baseDom with audioPlayFails := true } rfl)
      "https://example.com/a.mp3" (by decide)).1 (by decide)
  · exact ((audioPlay_string_iff [("alertSound", JsValue.vStr "\x7balertSound\x7d")]
      baseDom rfl) "\x7balertSound\x7d" (by decide)).2.1 (Or.inr (Or.inl (by decide)))
